import Mathlib

/-!
Shallow embedding of the CBAM dashboard calculation engine (src/cbam.py).
Numeric values are modelled as exact rationals; the Python float arithmetic
of the source is the usual field arithmetic, and Python round(x, 2) is
modelled as exact round-half-to-even at two decimal places.
Only the calculation section (lines 47-62, 114-132, 143-153, 167-168) has
domain logic; the Streamlit rendering around it is I/O plumbing and is not
part of the embedding.
-/

namespace Cbam

/-- A product entry as appended by the product form (src/cbam.py lines 57-62):
keys Product, Quantity, Emission Factor, Electricity Used. -/
structure ProductEntry where
  product : String
  quantity : ℚ
  emissionFactor : ℚ
  electricityUsed : ℚ
deriving DecidableEq, Repr

/-- A scenario dict (src/cbam.py lines 84-89 and 100-105): keys Scenario,
Solar %, Efficiency %, Investment Cost. -/
structure Scenario where
  scenario : String
  solarPct : ℚ
  efficiencyPct : ℚ
  investmentCost : ℚ
deriving DecidableEq, Repr

/-- Default emission factor table (src/cbam.py line 50). The selectbox at
line 48 restricts the key to the five product names, so the lookup is
partial on all other strings. -/
def emission_factor_default (product_name : String) : Option ℚ :=
  if product_name = "Steel" then some (18/10)
  else if product_name = "Cement" then some (9/10)
  else if product_name = "Aluminium" then some 12
  else if product_name = "Fertilizer" then some 3
  else if product_name = "Electricity" then some (7/10)
  else none

/-- Building a product entry from the form inputs (src/cbam.py lines 48-62):
electricity_used is initialised to 0.0 and only the non-Electricity branch
shows the number input that can overwrite it (lines 52-54). -/
def mkProductEntry (product_name : String) (quantity emission_factor electricity_input : ℚ) :
    ProductEntry :=
  { product := product_name
    quantity := quantity
    emissionFactor := emission_factor
    electricityUsed := if product_name = "Electricity" then 0 else electricity_input }

/-- Round a rational to the nearest integer, ties to even: the behaviour of
Python round() on an exactly representable half-way value. -/
def roundHalfEven (x : ℚ) : ℤ :=
  let f := ⌊x⌋
  let r := x - f
  if r < 1/2 then f
  else if 1/2 < r then f + 1
  else if f % 2 = 0 then f else f + 1

/-- Python round(x, 2): round to two decimal places. -/
def round2 (x : ℚ) : ℚ := (roundHalfEven (100 * x) : ℚ) / 100

/-- Scope 1 emissions for one (product, scenario) pair (src/cbam.py line 117). -/
def scope1 (p : ProductEntry) (s : Scenario) : ℚ :=
  p.quantity * p.emissionFactor * (1 - s.efficiencyPct / 100)

/-- Scope 2 emissions for one (product, scenario) pair (src/cbam.py line 118):
the electricity factor is the literal constant 0.7. -/
def scope2 (p : ProductEntry) (s : Scenario) : ℚ :=
  p.electricityUsed * (7/10) * (1 - s.solarPct / 100)

/-- Total emissions (src/cbam.py line 119). -/
def total_emissions (p : ProductEntry) (s : Scenario) : ℚ :=
  scope1 p s + scope2 p s

/-- CBAM fee (src/cbam.py line 120). -/
def cbam_fee (p : ProductEntry) (s : Scenario) (eu_ets_price local_carbon_price : ℚ) : ℚ :=
  total_emissions p s * max (eu_ets_price - local_carbon_price) 0

/-- Net savings (src/cbam.py line 121). -/
def net_savings (p : ProductEntry) (s : Scenario) (eu_ets_price local_carbon_price : ℚ) : ℚ :=
  cbam_fee p s eu_ets_price local_carbon_price - s.investmentCost

/-- One row of detailed_results (src/cbam.py lines 122-132). The emission and
money fields hold the values rounded to 2 decimals, as the dict does. -/
structure ResultRow where
  scenario : String
  product : String
  quantity : ℚ
  scope1R : ℚ
  scope2R : ℚ
  totalR : ℚ
  feeR : ℚ
  investment : ℚ
  netSavingsR : ℚ
deriving DecidableEq, Repr

/-- The column headers of the detailed_results dict, in source order
(src/cbam.py lines 122-132). -/
def rowColumns : List String :=
  ["Scenario", "Product", "Quantity", "Scope 1 (tCO₂)", "Scope 2 (tCO₂)",
   "Total Emissions (tCO₂)", "Estimated CBAM Fee (€)", "Investment (€)",
   "Net Savings (€)"]

/-- Build the appended dict for one (scenario, product) pair
(src/cbam.py lines 117-132). -/
def mkResultRow (p : ProductEntry) (s : Scenario) (eu_ets_price local_carbon_price : ℚ) :
    ResultRow :=
  { scenario := s.scenario
    product := p.product
    quantity := p.quantity
    scope1R := round2 (scope1 p s)
    scope2R := round2 (scope2 p s)
    totalR := round2 (total_emissions p s)
    feeR := round2 (cbam_fee p s eu_ets_price local_carbon_price)
    investment := s.investmentCost
    netSavingsR := round2 (net_savings p s eu_ets_price local_carbon_price) }

/-- detailed_results (src/cbam.py lines 112-132): scenario-major double loop,
guarded by both input lists being non-empty. -/
def detailed_results (product_entries : List ProductEntry) (all_scenarios : List Scenario)
    (eu_ets_price local_carbon_price : ℚ) : List ResultRow :=
  if product_entries.isEmpty ∨ all_scenarios.isEmpty then []
  else all_scenarios.flatMap fun s =>
    product_entries.map fun p => mkResultRow p s eu_ets_price local_carbon_price

/-- One row of df_summary (src/cbam.py line 149). -/
structure ScenarioSummary where
  scenario : String
  totalEmissions : ℚ
  fee : ℚ
  netSavings : ℚ
deriving DecidableEq, Repr

/-- The distinct scenario names of the detail rows, in first-appearance order. -/
def uniqueKeys (rows : List ResultRow) : List String :=
  rows.foldl (fun acc r => if r.scenario ∈ acc then acc else acc ++ [r.scenario]) []

/-- df_summary (src/cbam.py lines 143-153): pandas groupby on the Scenario
column with its default sort=True sorts the group keys ascending, then sums
the three selected (already rounded) columns within each group; an empty
detail table yields an empty summary. -/
def df_summary (rows : List ResultRow) : List ScenarioSummary :=
  (List.insertionSort (fun a b => a ≤ b) (uniqueKeys rows)).map fun k =>
    let grp := rows.filter fun r => r.scenario = k
    { scenario := k
      totalEmissions := (grp.map ResultRow.totalR).sum
      fee := (grp.map ResultRow.feeR).sum
      netSavings := (grp.map ResultRow.netSavingsR).sum }

/-- best_scenario (src/cbam.py lines 167-168): pandas idxmax returns the label
of the FIRST row attaining the maximum of the Net Savings column, and .loc
yields that row; the surrounding guard leaves no recommendation when the
summary is empty. -/
def best_scenario : List ScenarioSummary → Option ScenarioSummary
  | [] => none
  | x :: xs =>
    some (xs.foldl (fun best r => if best.netSavings < r.netSavings then r else best) x)

/-- The full output of the calculation section: detail rows, per-scenario
summary, and the recommended scenario when one exists. -/
structure EvalResult where
  rows : List ResultRow
  summaries : List ScenarioSummary
  recommendation : Option ScenarioSummary
deriving DecidableEq, Repr

/-- The whole engine (src/cbam.py lines 112-168) as one function of its
inputs. -/
def evaluate (product_entries : List ProductEntry) (all_scenarios : List Scenario)
    (eu_ets_price local_carbon_price : ℚ) : EvalResult :=
  let rows := detailed_results product_entries all_scenarios eu_ets_price local_carbon_price
  let summ := df_summary rows
  { rows := rows, summaries := summ, recommendation := best_scenario summ }

/-- Modelled from the spec: scope2 with a configurable electricity factor
taken from a supplied EmissionFactors table (spec section 4.2 step 3); the
source has no such parameter, its scope2 uses the literal 0.7. -/
def specScope2 (electricity_factor : ℚ) (p : ProductEntry) (s : Scenario) : ℚ :=
  p.electricityUsed * electricity_factor * (1 - s.solarPct / 100)

/-- Concrete fixture: the Steel record of the spec test (quantity 10, default
Steel factor 1.8, electricity 5 MWh). -/
def steelRecord : ProductEntry := mkProductEntry "Steel" 10 (18/10) 5

/-- Concrete fixture: a record whose per-row emissions round to 0.00 but whose
exact value is 0.004 tCO2 (quantity 1, emission factor 0.004, no electricity). -/
def tinyRecord : ProductEntry := mkProductEntry "Steel" 1 (1/250) 0

/-- Concrete fixture: the do-nothing scenario of the spec test. -/
def baseScenario : Scenario := ⟨"base", 0, 0, 0⟩

/-- Concrete fixture: a do-nothing scenario named a. -/
def scenarioA : Scenario := ⟨"a", 0, 0, 0⟩

/-- Concrete fixture: a do-nothing scenario named b. -/
def scenarioB : Scenario := ⟨"b", 0, 0, 0⟩

/-- Concrete fixture: a do-nothing scenario named s. -/
def scenarioS : Scenario := ⟨"s", 0, 0, 0⟩

end Cbam

namespace Cbam

set_option maxRecDepth 20000

/-- Rounding to the nearest integer (ties to even) moves a rational by at
most one half. -/
theorem abs_sub_roundHalfEven (x : ℚ) : |x - (roundHalfEven x : ℚ)| ≤ 1/2 := by
  have h0 : ((⌊x⌋ : ℤ) : ℚ) ≤ x := Int.floor_le x
  have h1 : x < (⌊x⌋ : ℚ) + 1 := Int.lt_floor_add_one x
  simp only [roundHalfEven]
  by_cases hlt : x - (⌊x⌋ : ℚ) < 1/2
  · rw [if_pos hlt, abs_le]
    constructor <;> linarith
  · by_cases hgt : (1:ℚ)/2 < x - (⌊x⌋ : ℚ)
    · rw [if_neg hlt, if_pos hgt]
      push_cast
      rw [abs_le]
      constructor <;> linarith
    · have heq : x - (⌊x⌋ : ℚ) = 1/2 := le_antisymm (not_lt.1 hgt) (not_lt.1 hlt)
      rw [if_neg hlt, if_neg hgt]
      by_cases hev : ⌊x⌋ % 2 = 0
      · rw [if_pos hev, abs_le]
        constructor <;> linarith
      · rw [if_neg hev]
        push_cast
        rw [abs_le]
        constructor <;> linarith

/-- Rounding a sum to two decimals differs from the sum of the two roundings
by at most 0.01: the three per-value errors are below 1.5 hundredths, and the
discrepancy is a whole number of hundredths. -/
theorem round2_add_tolerance (a b : ℚ) :
    |round2 (a + b) - (round2 a + round2 b)| ≤ 1/100 := by
  have hm := abs_sub_roundHalfEven (100 * a)
  have hn := abs_sub_roundHalfEven (100 * b)
  have hk := abs_sub_roundHalfEven (100 * (a + b))
  set m := roundHalfEven (100 * a) with hmdef
  set n := roundHalfEven (100 * b) with hndef
  set k := roundHalfEven (100 * (a + b)) with hkdef
  have hcast : |((k - m - n : ℤ) : ℚ)| ≤ 3/2 := by
    push_cast
    rw [abs_le] at hm hn hk ⊢
    constructor <;> linarith [hm.1, hm.2, hn.1, hn.2, hk.1, hk.2]
  have hint : |k - m - n| ≤ 1 := by
    have h2 : ((|k - m - n| : ℤ) : ℚ) ≤ 3/2 := by rwa [Int.cast_abs]
    have h3 : ((|k - m - n| : ℤ) : ℚ) < ((2 : ℤ) : ℚ) := lt_of_le_of_lt h2 (by norm_num)
    have h4 : |k - m - n| < 2 := by exact_mod_cast h3
    omega
  have hrepr : round2 (a + b) - (round2 a + round2 b) = ((k - m - n : ℤ) : ℚ) / 100 := by
    simp only [round2, ← hmdef, ← hndef, ← hkdef]
    push_cast
    ring
  rw [hrepr, abs_div]
  have h5 : |((k - m - n : ℤ) : ℚ)| ≤ 1 := by
    rw [← Int.cast_abs]
    exact_mod_cast hint
  rw [abs_of_pos (show (0:ℚ) < 100 by norm_num)]
  linarith

/-- C1: the detail row carries no Scope 3 component at all. At the concrete
Steel input its columns are exactly the nine listed in the source, none of
them a Scope 3 column, and the rounded total is exactly the sum of the
rounded Scope 1 and Scope 2 entries, leaving nothing for a third scope. -/
theorem claim_C1_counterexample :
    "Scope 3 (tCO₂)" ∉ rowColumns ∧
    (mkResultRow steelRecord baseScenario 100 0).totalR =
      (mkResultRow steelRecord baseScenario 100 0).scope1R +
        (mkResultRow steelRecord baseScenario 100 0).scope2R := by
  constructor
  · decide
  · norm_num +decide [mkResultRow, steelRecord, baseScenario, mkProductEntry, scope1, scope2,
      total_emissions, cbam_fee, net_savings, round2, roundHalfEven, Int.fract,
      -Int.self_sub_floor]

/-- C1 (amended): every result row satisfies total = scope1 + scope2 within
the 0.01 rounding tolerance; the engine computes no scope3 component. -/
theorem claim_C1_theorem (p : ProductEntry) (s : Scenario)
    (eu_ets_price local_carbon_price : ℚ) :
    |(mkResultRow p s eu_ets_price local_carbon_price).totalR -
        ((mkResultRow p s eu_ets_price local_carbon_price).scope1R +
          (mkResultRow p s eu_ets_price local_carbon_price).scope2R)| ≤ 1/100 := by
  simp only [mkResultRow, total_emissions]
  exact round2_add_tolerance (scope1 p s) (scope2 p s)

/-- C4: scope2 does not follow a configurable electricity factor; with a
supplied factor of 1.4 the spec formula gives 7 tCO2 on the Steel record
while the source computes 3.5, because the source hard-codes 0.7. -/
theorem claim_C4_counterexample :
    scope2 steelRecord baseScenario ≠ specScope2 (14/10) steelRecord baseScenario ∧
    scope2 steelRecord baseScenario = 7/2 ∧
    specScope2 (14/10) steelRecord baseScenario = 7 := by
  refine ⟨?_, ?_, ?_⟩ <;>
    norm_num +decide [scope2, specScope2, steelRecord, baseScenario, mkProductEntry]

/-- C4 (amended): for every record and scenario, scope2 equals the record
electricity times the fixed literal constant 0.7 times one minus the
renewable share percentage over 100; it agrees with the spec formula exactly
when the supplied electricity factor is 0.7. -/
theorem claim_C4_theorem (p : ProductEntry) (s : Scenario)
    (eu_ets_price local_carbon_price : ℚ) :
    scope2 p s = p.electricityUsed * (7/10) * (1 - s.solarPct / 100) ∧
    scope2 p s = specScope2 (7/10) p s ∧
    (mkResultRow p s eu_ets_price local_carbon_price).scope2R = round2 (scope2 p s) := by
  refine ⟨rfl, rfl, rfl⟩

/-- C5: for every (record, scenario) pair the fee is total emissions times
the nonnegative price spread and net savings is fee minus the investment
cost; the row stores the two-decimal roundings of these exact values. -/
theorem claim_C5_theorem (p : ProductEntry) (s : Scenario)
    (eu_ets_price local_carbon_price : ℚ) :
    cbam_fee p s eu_ets_price local_carbon_price =
      total_emissions p s * max (eu_ets_price - local_carbon_price) 0 ∧
    net_savings p s eu_ets_price local_carbon_price =
      cbam_fee p s eu_ets_price local_carbon_price - s.investmentCost ∧
    (mkResultRow p s eu_ets_price local_carbon_price).feeR =
      round2 (cbam_fee p s eu_ets_price local_carbon_price) ∧
    (mkResultRow p s eu_ets_price local_carbon_price).netSavingsR =
      round2 (net_savings p s eu_ets_price local_carbon_price) := by
  refine ⟨rfl, rfl, rfl, rfl⟩

/-- C6: the concrete Steel test of the spec: quantity 10 at factor 1.8 with
5 MWh of electricity under the do-nothing scenario at prices 100 and 0
yields scope1 = 18, scope2 = 3.5, total = 21.5 with no third component,
fee = 2150 and net savings = 2150. -/
theorem claim_C6_theorem :
    emission_factor_default "Steel" = some (18/10) ∧
    scope1 steelRecord baseScenario = 18 ∧
    scope2 steelRecord baseScenario = 7/2 ∧
    total_emissions steelRecord baseScenario = 43/2 ∧
    total_emissions steelRecord baseScenario -
      (scope1 steelRecord baseScenario + scope2 steelRecord baseScenario) = 0 ∧
    cbam_fee steelRecord baseScenario 100 0 = 2150 ∧
    net_savings steelRecord baseScenario 100 0 = 2150 := by
  refine ⟨rfl, ?_, ?_, ?_, ?_, ?_, ?_⟩ <;>
    norm_num +decide [scope1, scope2, total_emissions, cbam_fee, net_savings,
      steelRecord, baseScenario, mkProductEntry]

/-- Folding the dedup step of uniqueKeys over any row list preserves the
absence of duplicates in the accumulator. -/
theorem uniqueKeys_foldl_nodup (rows : List ResultRow) (acc : List String)
    (h : acc.Nodup) :
    (rows.foldl
      (fun acc r => if r.scenario ∈ acc then acc else acc ++ [r.scenario]) acc).Nodup := by
  induction rows generalizing acc with
  | nil => exact h
  | cons r rows ih =>
    simp only [List.foldl_cons]
    by_cases hm : r.scenario ∈ acc
    · rw [if_pos hm]
      exact ih acc h
    · rw [if_neg hm]
      refine ih _ (List.Nodup.append h (List.nodup_singleton _) ?_)
      intro a ha hb
      rw [List.mem_singleton] at hb
      exact hm (hb ▸ ha)

/-- The distinct scenario names collected from the detail rows contain no
duplicates. -/
theorem uniqueKeys_nodup (rows : List ResultRow) : (uniqueKeys rows).Nodup :=
  uniqueKeys_foldl_nodup rows [] List.nodup_nil

/-- The summary rows come out strictly sorted by scenario name, because the
group keys are distinct and pandas sorts them ascending. -/
theorem df_summary_pairwise (rows : List ResultRow) :
    (df_summary rows).Pairwise fun x y => x.scenario < y.scenario := by
  unfold df_summary
  rw [List.pairwise_map]
  have hsort : List.Sorted (fun a b : String => a ≤ b)
      (List.insertionSort (fun a b => a ≤ b) (uniqueKeys rows)) :=
    List.sorted_insertionSort _ _
  have hnd : (List.insertionSort (fun a b => a ≤ b) (uniqueKeys rows)).Nodup :=
    ((List.perm_insertionSort _ _).nodup_iff).2 (uniqueKeys_nodup rows)
  exact (List.Pairwise.and hsort hnd).imp fun h => lt_of_le_of_ne h.1 h.2

/-- Scanning the summary rows with the idxmax fold from a strictly
name-sorted list yields an element of the list that attains the maximum of
net savings and, among the rows that tie with it, has the smallest name. -/
theorem foldl_best_spec (l : List ScenarioSummary) (b : ScenarioSummary)
    (hs : (b :: l).Pairwise fun x y => x.scenario < y.scenario) :
    (l.foldl (fun best r => if best.netSavings < r.netSavings then r else best) b) ∈ b :: l ∧
    ∀ y ∈ b :: l,
      y.netSavings ≤
        (l.foldl (fun best r => if best.netSavings < r.netSavings then r else best) b).netSavings ∧
      (y.netSavings =
          (l.foldl (fun best r => if best.netSavings < r.netSavings then r else best) b).netSavings →
        (l.foldl (fun best r => if best.netSavings < r.netSavings then r else best) b).scenario ≤
          y.scenario) := by
  induction l generalizing b with
  | nil =>
    refine ⟨List.mem_singleton_self b, ?_⟩
    intro y hy
    rw [List.mem_singleton] at hy
    subst hy
    exact ⟨le_refl _, fun _ => le_refl _⟩
  | cons a l ih =>
    rw [List.pairwise_cons] at hs
    obtain ⟨hb, hs'⟩ := hs
    have hba : b.scenario < a.scenario := hb a (List.mem_cons_self a l)
    have hbl : ∀ y ∈ l, b.scenario < y.scenario := fun y hy => hb y (List.mem_cons_of_mem a hy)
    rw [List.pairwise_cons] at hs'
    obtain ⟨hal, hl⟩ := hs'
    simp only [List.foldl_cons]
    by_cases hcase : b.netSavings < a.netSavings
    · rw [if_pos hcase]
      have hsrt : (a :: l).Pairwise fun x y => x.scenario < y.scenario :=
        List.pairwise_cons.2 ⟨hal, hl⟩
      obtain ⟨hmem, hall⟩ := ih a hsrt
      refine ⟨List.mem_cons_of_mem b hmem, ?_⟩
      intro y hy
      rcases List.mem_cons.1 hy with hyb | hyal
      · subst hyb
        have ha1 := (hall a (List.mem_cons_self a l)).1
        constructor
        · linarith
        · intro htie
          exact absurd htie (by linarith)
      · exact hall y hyal
    · rw [if_neg hcase]
      have hale : a.netSavings ≤ b.netSavings := not_lt.1 hcase
      have hsrt : (b :: l).Pairwise fun x y => x.scenario < y.scenario :=
        List.pairwise_cons.2 ⟨hbl, hl⟩
      obtain ⟨hmem, hall⟩ := ih b hsrt
      have hbres := hall b (List.mem_cons_self b l)
      refine ⟨?_, ?_⟩
      · rcases List.mem_cons.1 hmem with hrb | hrl
        · rw [hrb]
          exact List.mem_cons_self b (a :: l)
        · exact List.mem_cons_of_mem b (List.mem_cons_of_mem a hrl)
      · intro y hy
        rcases List.mem_cons.1 hy with hyb | hya
        · subst hyb
          exact hbres
        · rcases List.mem_cons.1 hya with hya' | hyl
          · subst hya'
            constructor
            · linarith [hbres.1]
            · intro htie
              have hbtie : b.netSavings =
                  (l.foldl (fun best r =>
                    if best.netSavings < r.netSavings then r else best) b).netSavings := by
                linarith [hbres.1]
              have := hbres.2 hbtie
              exact le_of_lt (lt_of_le_of_lt this hba)
          · exact hall y (List.mem_cons_of_mem b hyl)

/-- The recommendation, when present, is a summary row with the maximum net
savings, and every tying row has a name at or above its own: this is the
first maximum of the name-sorted summary. -/
theorem best_scenario_spec (l : List ScenarioSummary)
    (hs : l.Pairwise fun x y => x.scenario < y.scenario) (r : ScenarioSummary)
    (h : best_scenario l = some r) :
    r ∈ l ∧ ∀ y ∈ l,
      y.netSavings ≤ r.netSavings ∧
      (y.netSavings = r.netSavings → r.scenario ≤ y.scenario) := by
  cases l with
  | nil => simp [best_scenario] at h
  | cons x xs =>
    have hspec := foldl_best_spec xs x hs
    simp only [best_scenario, Option.some_inj] at h
    rw [← h]
    exact hspec

/-- C2: two tied scenarios named b then a in input order; the code recommends
a, the alphabetically first, not b, the first of the input list. -/
theorem claim_C2_counterexample :
    ([scenarioB, scenarioA].map Scenario.scenario = ["b", "a"]) ∧
    ((evaluate [steelRecord] [scenarioB, scenarioA] 100 0).summaries.map
        ScenarioSummary.netSavings = [2150, 2150]) ∧
    ((evaluate [steelRecord] [scenarioB, scenarioA] 100 0).recommendation.map
        ScenarioSummary.scenario = some "a") ∧
    ((evaluate [steelRecord] [scenarioB, scenarioA] 100 0).recommendation.map
        ScenarioSummary.scenario ≠ some "b") := by
  refine ⟨rfl, ?_, ?_, ?_⟩ <;>
    norm_num +decide [evaluate, detailed_results, mkProductEntry, mkResultRow, df_summary,
      uniqueKeys, best_scenario, List.insertionSort, List.orderedInsert, steelRecord,
      scenarioA, scenarioB, scope1, scope2, total_emissions, cbam_fee, net_savings,
      round2, roundHalfEven, Int.fract, -Int.self_sub_floor]

/-- C2 (amended): the recommendation is a summary row with the maximum net
savings; on ties it is the first maximum of the summary table, whose rows
pandas groupby has sorted by scenario name, so the tied scenario with the
lexicographically smallest name wins, not the first of the input list. -/
theorem claim_C2_theorem (product_entries : List ProductEntry) (all_scenarios : List Scenario)
    (eu_ets_price local_carbon_price : ℚ) (r : ScenarioSummary)
    (h : (evaluate product_entries all_scenarios eu_ets_price local_carbon_price).recommendation =
      some r) :
    r ∈ (evaluate product_entries all_scenarios eu_ets_price local_carbon_price).summaries ∧
    ∀ y ∈ (evaluate product_entries all_scenarios eu_ets_price local_carbon_price).summaries,
      y.netSavings ≤ r.netSavings ∧
      (y.netSavings = r.netSavings → r.scenario ≤ y.scenario) :=
  best_scenario_spec _ (df_summary_pairwise _) r h

/-- C2 witness: the amended statement applied at the concrete tied input. -/
theorem claim_C2_witness :
    ((evaluate [steelRecord] [scenarioB, scenarioA] 100 0).recommendation =
      some { scenario := "a", totalEmissions := 43/2, fee := 2150, netSavings := 2150 }) ∧
    ({ scenario := "a", totalEmissions := 43/2, fee := 2150,
        netSavings := 2150 } : ScenarioSummary) ∈
      (evaluate [steelRecord] [scenarioB, scenarioA] 100 0).summaries ∧
    ∀ y ∈ (evaluate [steelRecord] [scenarioB, scenarioA] 100 0).summaries,
      y.netSavings ≤ (2150 : ℚ) ∧
      (y.netSavings = (2150 : ℚ) → ("a" : String) ≤ y.scenario) := by
  have h : (evaluate [steelRecord] [scenarioB, scenarioA] 100 0).recommendation =
      some { scenario := "a", totalEmissions := 43/2, fee := 2150, netSavings := 2150 } := by
    norm_num +decide [evaluate, detailed_results, mkProductEntry, mkResultRow, df_summary,
      uniqueKeys, best_scenario, List.insertionSort, List.orderedInsert, steelRecord,
      scenarioA, scenarioB, scope1, scope2, total_emissions, cbam_fee, net_savings,
      round2, roundHalfEven, Int.fract, -Int.self_sub_floor]
  exact ⟨h, (claim_C2_theorem _ _ _ _ _ h).1, (claim_C2_theorem _ _ _ _ _ h).2⟩

/-- C3: two records whose exact per-row total is 0.004 tCO2 each: the rows
round to 0.00 and the scenario summary reports 0 total emissions, though the
full-precision sum is 0.008, which presents as 0.01; the aggregation
therefore runs over already-rounded per-row values. -/
theorem claim_C3_counterexample :
    ((evaluate [tinyRecord, tinyRecord] [scenarioS] 100 0).summaries.map
        ScenarioSummary.totalEmissions = [0]) ∧
    total_emissions tinyRecord scenarioS + total_emissions tinyRecord scenarioS = 1/125 ∧
    round2 (1/125) = 1/100 ∧
    (0 : ℚ) ≠ round2 (1/125) := by
  refine ⟨?_, ?_, ?_, ?_⟩ <;>
    norm_num +decide [evaluate, detailed_results, mkProductEntry, mkResultRow, df_summary,
      uniqueKeys, best_scenario, List.insertionSort, List.orderedInsert, tinyRecord,
      scenarioS, scope1, scope2, total_emissions, cbam_fee, net_savings,
      round2, roundHalfEven, Int.fract, -Int.self_sub_floor]

/-- C3 (amended): rounding to two decimals is applied to each detail row
first, and every scenario summary is the plain sum of those already-rounded
per-row values, not a full-precision accumulation. -/
theorem claim_C3_theorem (product_entries : List ProductEntry) (all_scenarios : List Scenario)
    (eu_ets_price local_carbon_price : ℚ) (m : ScenarioSummary)
    (hm : m ∈ (evaluate product_entries all_scenarios eu_ets_price local_carbon_price).summaries) :
    m.totalEmissions =
      (((evaluate product_entries all_scenarios eu_ets_price local_carbon_price).rows.filter
          fun r => r.scenario = m.scenario).map ResultRow.totalR).sum ∧
    m.fee =
      (((evaluate product_entries all_scenarios eu_ets_price local_carbon_price).rows.filter
          fun r => r.scenario = m.scenario).map ResultRow.feeR).sum ∧
    m.netSavings =
      (((evaluate product_entries all_scenarios eu_ets_price local_carbon_price).rows.filter
          fun r => r.scenario = m.scenario).map ResultRow.netSavingsR).sum ∧
    ∀ r ∈ (evaluate product_entries all_scenarios eu_ets_price local_carbon_price).rows,
      ∃ p ∈ product_entries, ∃ s ∈ all_scenarios,
        r.totalR = round2 (total_emissions p s) ∧
        r.feeR = round2 (cbam_fee p s eu_ets_price local_carbon_price) ∧
        r.netSavingsR = round2 (net_savings p s eu_ets_price local_carbon_price) := by
  have hm' : m ∈ df_summary
      (detailed_results product_entries all_scenarios eu_ets_price local_carbon_price) := hm
  unfold df_summary at hm'
  rw [List.mem_map] at hm'
  obtain ⟨k, hk, hmk⟩ := hm'
  subst hmk
  refine ⟨rfl, rfl, rfl, ?_⟩
  · intro r hr
    have hr' : r ∈ detailed_results product_entries all_scenarios
        eu_ets_price local_carbon_price := hr
    unfold detailed_results at hr'
    by_cases hempty : product_entries.isEmpty ∨ all_scenarios.isEmpty
    · rw [if_pos hempty] at hr'
      exact absurd hr' (List.not_mem_nil r)
    · rw [if_neg hempty] at hr'
      rw [List.mem_flatMap] at hr'
      obtain ⟨s, hs, hrs⟩ := hr'
      rw [List.mem_map] at hrs
      obtain ⟨p, hp, hpr⟩ := hrs
      exact ⟨p, hp, s, hs, by rw [← hpr]; exact ⟨rfl, rfl, rfl⟩⟩

/-- C3 witness: the amended statement applied at the concrete tiny input. -/
theorem claim_C3_witness :
    (({ scenario := "s", totalEmissions := 0, fee := 4/5,
        netSavings := 4/5 } : ScenarioSummary) ∈
      (evaluate [tinyRecord, tinyRecord] [scenarioS] 100 0).summaries) ∧
    ((0 : ℚ) =
      (((evaluate [tinyRecord, tinyRecord] [scenarioS] 100 0).rows.filter
          fun r => r.scenario = "s").map ResultRow.totalR).sum ∧
    (4/5 : ℚ) =
      (((evaluate [tinyRecord, tinyRecord] [scenarioS] 100 0).rows.filter
          fun r => r.scenario = "s").map ResultRow.feeR).sum ∧
    (4/5 : ℚ) =
      (((evaluate [tinyRecord, tinyRecord] [scenarioS] 100 0).rows.filter
          fun r => r.scenario = "s").map ResultRow.netSavingsR).sum ∧
    ∀ r ∈ (evaluate [tinyRecord, tinyRecord] [scenarioS] 100 0).rows,
      ∃ p ∈ [tinyRecord, tinyRecord], ∃ s ∈ [scenarioS],
        r.totalR = round2 (total_emissions p s) ∧
        r.feeR = round2 (cbam_fee p s 100 0) ∧
        r.netSavingsR = round2 (net_savings p s 100 0)) := by
  have hm :
      (({ scenario := "s", totalEmissions := 0, fee := 4/5, netSavings := 4/5 } :
          ScenarioSummary) ∈
        (evaluate [tinyRecord, tinyRecord] [scenarioS] 100 0).summaries) := by
    norm_num +decide [evaluate, detailed_results, mkProductEntry, mkResultRow, df_summary,
      uniqueKeys, best_scenario, List.insertionSort, List.orderedInsert, tinyRecord,
      scenarioS, scope1, scope2, total_emissions, cbam_fee, net_savings,
      round2, roundHalfEven, Int.fract, -Int.self_sub_floor]
  exact ⟨hm, claim_C3_theorem _ _ _ _ _ hm⟩

/-- C7: an empty record list or an empty scenario list yields the explicit
empty result: no rows, no summaries and no recommendation, with no error. -/
theorem claim_C7_theorem (product_entries : List ProductEntry) (all_scenarios : List Scenario)
    (eu_ets_price local_carbon_price : ℚ)
    (h : product_entries = [] ∨ all_scenarios = []) :
    evaluate product_entries all_scenarios eu_ets_price local_carbon_price =
      { rows := [], summaries := [], recommendation := none } := by
  have hrows : detailed_results product_entries all_scenarios
      eu_ets_price local_carbon_price = [] := by
    unfold detailed_results
    rcases h with h | h <;> subst h <;> simp
  unfold evaluate
  rw [hrows]
  rfl

/-- C7 witness: the empty-records case at concrete inputs. -/
theorem claim_C7_witness :
    (([] : List ProductEntry) = [] ∨ [scenarioS] = ([] : List Scenario)) ∧
    evaluate [] [scenarioS] 100 0 = { rows := [], summaries := [], recommendation := none } :=
  ⟨Or.inl rfl, claim_C7_theorem [] [scenarioS] 100 0 (Or.inl rfl)⟩

/-- C8: raising the renewable share within 0 to 100 never increases scope2
for a record with positive electricity. -/
theorem claim_C8_theorem (p : ProductEntry) (s : Scenario) (a b : ℚ)
    (h0 : 0 ≤ a) (hab : a ≤ b) (hb : b ≤ 100) (he : 0 < p.electricityUsed) :
    scope2 p { s with solarPct := b } ≤ scope2 p { s with solarPct := a } := by
  simp only [scope2]
  have h1 : 1 - b / 100 ≤ 1 - a / 100 := by linarith
  have h2 : (0:ℚ) ≤ p.electricityUsed * (7/10) := by
    have := he.le
    positivity
  exact mul_le_mul_of_nonneg_left h1 h2

/-- C8 witness: the monotonicity statement at shares 10 and 40 on the Steel
record. -/
theorem claim_C8_witness :
    (0:ℚ) ≤ 10 ∧ (10:ℚ) ≤ 40 ∧ (40:ℚ) ≤ 100 ∧ 0 < steelRecord.electricityUsed ∧
    scope2 steelRecord { baseScenario with solarPct := 40 } ≤
      scope2 steelRecord { baseScenario with solarPct := 10 } := by
  refine ⟨by norm_num, by norm_num, by norm_num, ?_, ?_⟩
  · norm_num +decide [steelRecord, mkProductEntry]
  · exact claim_C8_theorem steelRecord baseScenario 10 40 (by norm_num) (by norm_num)
      (by norm_num) (by norm_num +decide [steelRecord, mkProductEntry])

/-- C9: the engine is a pure function: equal inputs give equal detail rows,
summaries and recommendation. -/
theorem claim_C9_theorem (pe1 pe2 : List ProductEntry) (sc1 sc2 : List Scenario)
    (e1 e2 l1 l2 : ℚ) (hp : pe1 = pe2) (hs : sc1 = sc2) (he : e1 = e2) (hl : l1 = l2) :
    evaluate pe1 sc1 e1 l1 = evaluate pe2 sc2 e2 l2 := by
  subst hp
  subst hs
  subst he
  subst hl
  rfl

/-- C9 witness: determinism at a concrete input. -/
theorem claim_C9_witness :
    ([steelRecord] : List ProductEntry) = [steelRecord] ∧
    evaluate [steelRecord] [baseScenario] 100 0 = evaluate [steelRecord] [baseScenario] 100 0 :=
  ⟨rfl, claim_C9_theorem _ _ _ _ _ _ _ _ rfl rfl rfl rfl⟩

/-- C10: an Electricity record always carries zero electricity used, so its
scope2 is zero for every scenario and its total emissions and fee reduce to
quantity, emission factor, efficiency gain and the price spread alone. -/
theorem claim_C10_theorem (product_name : String)
    (quantity emission_factor electricity_input : ℚ) (s : Scenario)
    (eu_ets_price local_carbon_price : ℚ) (h : product_name = "Electricity") :
    (mkProductEntry product_name quantity emission_factor electricity_input).electricityUsed
        = 0 ∧
    scope2 (mkProductEntry product_name quantity emission_factor electricity_input) s = 0 ∧
    total_emissions (mkProductEntry product_name quantity emission_factor electricity_input) s =
      quantity * emission_factor * (1 - s.efficiencyPct / 100) ∧
    cbam_fee (mkProductEntry product_name quantity emission_factor electricity_input) s
        eu_ets_price local_carbon_price =
      quantity * emission_factor * (1 - s.efficiencyPct / 100) *
        max (eu_ets_price - local_carbon_price) 0 := by
  subst h
  norm_num +decide [mkProductEntry, scope2, total_emissions, scope1, cbam_fee]

/-- C10 witness: the statement at a concrete Electricity record whose
electricity input is the nonzero 999. -/
theorem claim_C10_witness :
    ("Electricity" : String) = "Electricity" ∧
    (mkProductEntry "Electricity" 10 (7/10) 999).electricityUsed = 0 ∧
    scope2 (mkProductEntry "Electricity" 10 (7/10) 999) baseScenario = 0 ∧
    total_emissions (mkProductEntry "Electricity" 10 (7/10) 999) baseScenario =
      10 * (7/10) * (1 - baseScenario.efficiencyPct / 100) ∧
    cbam_fee (mkProductEntry "Electricity" 10 (7/10) 999) baseScenario 100 0 =
      10 * (7/10) * (1 - baseScenario.efficiencyPct / 100) * max (100 - 0) 0 :=
  ⟨rfl, claim_C10_theorem "Electricity" 10 (7/10) 999 baseScenario 100 0 rfl⟩

end Cbam
